import Mathlib

/-!
Verification of the machine-api-provider-kubevirt core: a shallow embedding of
the machinescope package (machine to virtual-machine translation, the update
gate, and status synchronization) and of the kubevirt VM manager (Create,
Update, Delete, Exists lifecycle orchestration), with theorems settling the
specified properties.

Conventions of the embedding:
- Go maps with string keys are association lists, with Go map assignment
  modelled by an insert that replaces the binding of an existing key and
  appends a new one otherwise.
- Times are integers counting seconds; time.Time.After is strict greater-than.
- Fallible Go functions return Except or Option; a Go runtime panic is the
  dedicated GoOutcome.panicked value.
- Remote infra-cluster calls are an oracle (InfraWorld) of response functions,
  and every operation additionally returns the list of remote calls it issued,
  in order, so that claims about which calls are attempted are statable.
-/

/-- Lookup in a Go string-to-string map modelled as an association list. -/
def mapLookup (m : List (String × String)) (k : String) : Option String :=
  match m with
  | [] => none
  | (k2, v) :: rest => if k2 = k then some v else mapLookup rest k

/-- Go map assignment for a string-to-string map: replace the binding of an
existing key, append otherwise. -/
def mapInsert (m : List (String × String)) (k v : String) : List (String × String) :=
  match m with
  | [] => [(k, v)]
  | (k2, v2) :: rest => if k2 = k then (k, v) :: rest else (k2, v2) :: mapInsert rest k v

/-- Dynamic Go values produced by encoding/json decoding into interface
values, plus the one slice type the kubevirt manager builds itself. A decoded
JSON array is always GoVal.arr (a slice of interface values); GoVal.mapSlice
is the distinct Go type built only by code, so that Go type
assertions distinguishing the two are representable. -/
inductive GoVal where
  | null
  | boolean (b : Bool)
  | num (n : Int)
  | str (s : String)
  | arr (xs : List GoVal)
  | obj (m : List (String × GoVal))
  | mapSlice (xs : List (List (String × GoVal)))

/-- Lookup in a Go map of dynamic values. -/
def goLookup (m : List (String × GoVal)) (k : String) : Option GoVal :=
  match m with
  | [] => none
  | (k2, v) :: rest => if k2 = k then some v else goLookup rest k

/-- Go map assignment for a map of dynamic values. -/
def goInsert (m : List (String × GoVal)) (k : String) (v : GoVal) : List (String × GoVal) :=
  match m with
  | [] => [(k, v)]
  | (k2, v2) :: rest => if k2 = k then (k, v) :: rest else (k2, v2) :: goInsert rest k v

/-- Result of running a Go function that can return a value, return an error,
or panic at runtime. -/
inductive GoOutcome (α : Type) where
  | ok (a : α)
  | err (msg : String)
  | panicked

/-- KubevirtMachineProviderSpec: the decoded provider configuration of one
machine (pkg/apis/kubevirtprovider/v1alpha1). -/
structure KubevirtMachineProviderSpec where
  sourcePvcName : String
  ignitionSecretName : String
  networkName : String
  requestedMemory : String
  requestedCPU : Int
  requestedStorage : String
  storageClassName : String
  persistentVolumeAccessMode : String
deriving DecidableEq, Repr

/-- VirtualMachineStatus: the observed created/ready booleans of a remote VM. -/
structure VirtualMachineStatus where
  created : Bool
  ready : Bool
deriving DecidableEq, Repr

/-- A kubernetes node address entry written into machine.Status.Addresses. -/
structure NodeAddress where
  addrType : String
  address : String
deriving DecidableEq, Repr

/-- The machine descriptor fields the core reads and writes. -/
structure Machine where
  name : String
  ns : String
  labels : List (String × String)
  annotations : List (String × String)
  clusterName : String
  providerID : Option String
  lastUpdated : Option Int
  providerStatus : Option VirtualMachineStatus
  addresses : List NodeAddress
deriving DecidableEq, Repr

/-- The source of a volume in a VMI template: either a data volume reference
or a cloud-init config drive backed by a user-data secret. -/
inductive VolumeSource where
  | dataVolume (name : String)
  | cloudInitConfigDrive (userDataSecretName : String)
deriving DecidableEq, Repr

/-- A named volume of a VMI template. -/
structure Volume where
  name : String
  source : VolumeSource
deriving DecidableEq, Repr

/-- A disk device wired into the VMI template domain. -/
structure Disk where
  name : String
  bus : String
deriving DecidableEq, Repr

/-- A network of the VMI template; the source is always a multus network here. -/
structure Network where
  name : String
  multusNetworkName : String
deriving DecidableEq, Repr

/-- A network interface of the VMI template domain; binding is bridge. -/
structure Interface where
  name : String
  bridge : Bool
deriving DecidableEq, Repr

/-- The boot data-volume template generated for a machine. -/
structure DataVolume where
  name : String
  ns : String
  sourcePvcName : String
  sourcePvcNamespace : String
  storageClassName : Option String
  requestsStorage : String
  accessModes : List String
deriving DecidableEq, Repr

/-- The VirtualMachineInstance template spec carried by a desired VM. -/
structure VMITemplate where
  labels : List (String × String)
  terminationGracePeriodSeconds : Int
  volumes : List Volume
  networks : List Network
  memoryRequest : String
  cpuRequest : Option String
  disks : List Disk
  interfaces : List Interface
  machineType : String
deriving DecidableEq, Repr

/-- A kubevirt VirtualMachine object, desired or observed. Metadata is
flattened into the structure. -/
structure VirtualMachine where
  apiVersion : String
  kind : String
  name : String
  ns : String
  labels : List (String × String)
  annotations : List (String × String)
  clusterName : String
  resourceVersion : String
  uid : String
  runStrategy : String
  dataVolumeTemplates : List DataVolume
  template : Option VMITemplate
  status : VirtualMachineStatus
deriving DecidableEq, Repr

/-- An observed VirtualMachineInstance; only name and namespace are read. -/
structure VirtualMachineInstance where
  name : String
  ns : String
deriving DecidableEq, Repr

/-- An ignition secret built for a machine; data holds the user-data bytes
(modelled as the dynamic JSON value they encode) under the key userdata. -/
structure Secret where
  name : String
  ns : String
  labels : List (String × String)
  userdata : GoVal

/-- The per-reconcile machine scope aggregate. -/
structure MachineScope where
  machine : Machine
  machineProviderSpec : KubevirtMachineProviderSpec
  infraNamespace : String
  infraID : String
deriving DecidableEq, Repr

namespace machinescope

/-- Machine state annotation value for a VM that is not created. -/
def vmNotCreated : String := "vmNotCreated"

/-- Machine state annotation value for a VM created but not ready. -/
def vmCreatedNotReady : String := "vmWasCreatedButNotReady"

/-- Machine state annotation value for a VM created and ready. -/
def vmCreatedAndReady : String := "vmWasCreatedAndReady"

/-- Default memory request applied when requestedMemory is empty. -/
def defaultRequestedMemory : String := "2048M"

/-- Default storage request applied when requestedStorage is empty. -/
def defaultRequestedStorage : String := "35Gi"

/-- corev1.ReadWriteMany. -/
def readWriteMany : String := "ReadWriteMany"

/-- corev1.ReadOnlyMany. -/
def readOnlyMany : String := "ReadOnlyMany"

/-- corev1.ReadWriteOnce. -/
def readWriteOnce : String := "ReadWriteOnce"

/-- Default persistent-volume access mode applied when none is configured. -/
def defaultPersistentVolumeAccessMode : String := readWriteMany

/-- Name of the data-volume disk and volume in the VMI template. -/
def defaultDataVolumeDiskName : String := "datavolumedisk1"

/-- Name of the cloud-init disk and volume in the VMI template. -/
def defaultCloudInitVolumeDiskName : String := "cloudinitdisk"

/-- Suffix component of the generated boot volume name. -/
def defaultBootVolumeDiskName : String := "bootvolume"

/-- Machine annotation key recording the VM UID. -/
def kubevirtIdAnnotationKey : String := "VmId"

/-- Default disk bus. -/
def defaultBus : String := "virtio"

/-- API version stamped on desired VMs. -/
def APIVersion : String := "kubevirt.io/v1alpha3"

/-- Kind stamped on desired VMs. -/
def Kind : String := "VirtualMachine"

/-- Name of the single network of the VMI template. -/
def mainNetworkName : String := "main"

/-- Termination grace period of the VMI template, in seconds. -/
def terminationGracePeriodSeconds : Int := 600

/-- Constant from the machine-api-operator dependency: the machine annotation
key carrying the instance state. -/
def MachineInstanceStateAnnotationName : String := "machine.openshift.io/instance-state"

/-- Constant from the machine-api-operator dependency: the machine label key
carrying the instance type. -/
def MachineInstanceTypeLabelName : String := "machine.openshift.io/instance-type"

/-- assertMandatoryParams: ordered check of the mandatory provider-spec
fields; the first empty field produces an InvalidMachineConfiguration error
naming the field; none when all three are set. -/
def assertMandatoryParams (s : MachineScope) : Option String :=
  if s.machineProviderSpec.sourcePvcName = "" then
    some (s.machine.name ++ ": missing value for SourcePvcName")
  else if s.machineProviderSpec.ignitionSecretName = "" then
    some (s.machine.name ++ ": missing value for IgnitionSecretName")
  else if s.machineProviderSpec.networkName = "" then
    some (s.machine.name ++ ": missing value for NetworkName")
  else
    none

/-- buildBootVolumeName: Sprintf of the VM name, a dash and the boot volume
disk name constant. -/
def buildBootVolumeName (virtualMachineName : String) : String :=
  virtualMachineName ++ "-" ++ defaultBootVolumeDiskName

/-- buildIgnitionSecretName: Sprintf of the VM name and the ignition suffix. -/
def buildIgnitionSecretName (virtualMachineName : String) : String :=
  virtualMachineName ++ "-ignition"

/-- Modelled from the spec: utils.BuildLabels of pkg/utils is not among the
provided sources; the spec only says a desired object carries infra-scope base
labels derived from the infra cluster id, overlaid by the machine's labels. -/
def BuildLabels (infraID : String) : List (String × String) :=
  [("tenant-cluster-id", infraID)]

/-- Overlay of the machine's labels onto the base labels: for each machine
label the Go loop assigns labels k to v, so machine labels win on collision. -/
def overlayLabels (base : List (String × String)) (overlay : List (String × String)) :
    List (String × String) :=
  overlay.foldl (fun acc kv => mapInsert acc kv.1 kv.2) base

/-- buildVMITemplate: the VirtualMachineInstance template of a desired VM,
with the labels, two volumes, the multus network, the memory and cpu requests,
the two disks and the bridged interface the source wires. The Go code leaves
Domain.Machine at its zero value, so machineType is empty. -/
def buildVMITemplate (s : MachineScope) (ns : String) : VMITemplate :=
  let virtualMachineName := s.machine.name
  let ignitionSecretName := buildIgnitionSecretName virtualMachineName
  let requestedMemory :=
    if s.machineProviderSpec.requestedMemory = "" then defaultRequestedMemory
    else s.machineProviderSpec.requestedMemory
  { labels := [("kubevirt.io/vm", virtualMachineName), ("name", virtualMachineName)]
    terminationGracePeriodSeconds := terminationGracePeriodSeconds
    volumes :=
      [ { name := defaultDataVolumeDiskName
          source := VolumeSource.dataVolume (buildBootVolumeName virtualMachineName) },
        { name := defaultCloudInitVolumeDiskName
          source := VolumeSource.cloudInitConfigDrive ignitionSecretName } ]
    networks := [{ name := mainNetworkName, multusNetworkName := s.machineProviderSpec.networkName }]
    memoryRequest := requestedMemory
    cpuRequest :=
      if s.machineProviderSpec.requestedCPU ≠ 0 then
        some (toString s.machineProviderSpec.requestedCPU)
      else none
    disks :=
      [ { name := defaultDataVolumeDiskName, bus := defaultBus },
        { name := defaultCloudInitVolumeDiskName, bus := defaultBus } ]
    interfaces := [{ name := mainNetworkName, bridge := true }]
    machineType := "" }

/-- buildBootVolumeDataVolumeTemplate: the generated boot data volume sourced
from the configured PVC. -/
def buildBootVolumeDataVolumeTemplate (virtualMachineName pvcName dvNamespace
    storageClassName pvcRequestsStorage accessMode : String) : DataVolume :=
  { name := buildBootVolumeName virtualMachineName
    ns := dvNamespace
    sourcePvcName := pvcName
    sourcePvcNamespace := dvNamespace
    storageClassName := if storageClassName = "" then none else some storageClassName
    requestsStorage := pvcRequestsStorage
    accessModes := [accessMode] }

/-- CreateVirtualMachineFromMachine: validate mandatory params, default the
storage request and access mode (rejecting an illegal explicit access mode),
and assemble the desired VirtualMachine. -/
def CreateVirtualMachineFromMachine (s : MachineScope) : Except String VirtualMachine :=
  match assertMandatoryParams s with
  | some e => Except.error e
  | none =>
    let vmiTemplate := buildVMITemplate s s.infraNamespace
    let pvcRequestsStorage :=
      if s.machineProviderSpec.requestedStorage = "" then defaultRequestedStorage
      else s.machineProviderSpec.requestedStorage
    let accessModeResult : Except String String :=
      if s.machineProviderSpec.persistentVolumeAccessMode = "" then
        Except.ok defaultPersistentVolumeAccessMode
      else if s.machineProviderSpec.persistentVolumeAccessMode = readWriteMany then
        Except.ok readWriteMany
      else if s.machineProviderSpec.persistentVolumeAccessMode = readOnlyMany then
        Except.ok readOnlyMany
      else if s.machineProviderSpec.persistentVolumeAccessMode = readWriteOnce then
        Except.ok readWriteOnce
      else
        Except.error (s.machine.name ++
          ": Value of PersistentVolumeAccessMode, can be only one of: ReadWriteMany, ReadOnlyMany, ReadWriteOnce")
    match accessModeResult with
    | Except.error e => Except.error e
    | Except.ok PVCAccessMode =>
      Except.ok
        { apiVersion := APIVersion
          kind := Kind
          name := s.machine.name
          ns := s.infraNamespace
          labels := overlayLabels (BuildLabels s.infraID) s.machine.labels
          annotations := s.machine.annotations
          clusterName := s.machine.clusterName
          resourceVersion := ""
          uid := ""
          runStrategy := "Always"
          dataVolumeTemplates :=
            [ buildBootVolumeDataVolumeTemplate s.machine.name
                s.machineProviderSpec.sourcePvcName s.infraNamespace
                s.machineProviderSpec.storageClassName pvcRequestsStorage PVCAccessMode ]
          template := some vmiTemplate
          status := { created := false, ready := false } }

/-- UpdateAllowed: true exactly when the machine has a non-empty providerID
and either no lastUpdated timestamp or lastUpdated plus the requeue interval
is still strictly after the current time. Times are in seconds. -/
def UpdateAllowed (s : MachineScope) (requeueAfterSeconds : Int) (now : Int) : Bool :=
  (match s.machine.providerID with
   | none => false
   | some pid => decide (pid ≠ "")) &&
  (match s.machine.lastUpdated with
   | none => true
   | some lastUpdated => decide (lastUpdated + requeueAfterSeconds > now))

/-- CreateIgnitionSecretFromMachine: wrap user data in a secret named
deterministically from the machine name in the infra namespace. -/
def CreateIgnitionSecretFromMachine (s : MachineScope) (userData : GoVal) : Secret :=
  { name := buildIgnitionSecretName s.machine.name
    ns := s.infraNamespace
    labels := BuildLabels s.infraID
    userdata := userData }

/-- Modelled from the spec: FormatProviderID of pkg/providerid is not among
the provided sources; the spec states the providerID format is
kubevirt followed by colon-slash-slash, the namespace, a slash and the name. -/
def FormatProviderID (ns name : String) : String :=
  "kubevirt://" ++ ns ++ "/" ++ name

/-- syncProviderID: set machine.Spec.ProviderID to the formatted id of the
observed VM, skipping the write when it already equals the computed value. -/
def syncProviderID (s : MachineScope) (vm : VirtualMachine) : MachineScope :=
  let providerID := FormatProviderID vm.ns vm.name
  match s.machine.providerID with
  | some existingProviderID =>
    if existingProviderID = providerID then s
    else { s with machine := { s.machine with providerID := some providerID } }
  | none => { s with machine := { s.machine with providerID := some providerID } }

/-- syncMachineAnnotationsAndLabels: record the VM UID, the instance type
label (only when the VM carries a template), and the instance state derived
from the created/ready status booleans. -/
def syncMachineAnnotationsAndLabels (s : MachineScope) (vm : VirtualMachine) : MachineScope :=
  let vmState :=
    if vm.status.created then
      if vm.status.ready then vmCreatedAndReady else vmCreatedNotReady
    else vmNotCreated
  let annots1 := mapInsert s.machine.annotations kubevirtIdAnnotationKey vm.uid
  let labels1 :=
    match vm.template with
    | some t => mapInsert s.machine.labels MachineInstanceTypeLabelName t.machineType
    | none => s.machine.labels
  let annots2 := mapInsert annots1 MachineInstanceStateAnnotationName vmState
  { s with machine := { s.machine with labels := labels1, annotations := annots2 } }

/-- Modelled from the spec: RawExtensionFromProviderStatus of
pkg/apis/kubevirtprovider/v1alpha1 is not among the provided sources; it
encodes the observed VM status into the machine's provider-status blob, and
the blob is modelled as the status value itself, with encoding total. -/
def RawExtensionFromProviderStatus (status : VirtualMachineStatus) :
    Except String VirtualMachineStatus :=
  Except.ok status

/-- syncProviderStatus: re-encode the observed VM status into the machine's
provider-status; fails only if encoding fails. -/
def syncProviderStatus (s : MachineScope) (vm : VirtualMachine) : Except String MachineScope :=
  match RawExtensionFromProviderStatus vm.status with
  | Except.error e =>
    Except.error ("failed to get machine provider status: " ++ e)
  | Except.ok st =>
    Except.ok { s with machine := { s.machine with providerStatus := some st } }

/-- syncNetworkAddresses: machine.Status.Addresses becomes the VMI name as an
internal DNS entry plus one internal IP entry per resolved IPv4 address; a
failed resolution (none) keeps only the DNS entry. The resolver is external,
so its result is a parameter. -/
def syncNetworkAddresses (s : MachineScope) (vmi : VirtualMachineInstance)
    (resolvedIPv4 : Option (List String)) : MachineScope :=
  let networkAddresses :=
    [{ addrType := "InternalDNS", address := vmi.name }] ++
      (match resolvedIPv4 with
       | none => []
       | some ips => ips.map (fun ip => { addrType := "InternalIP", address := ip }))
  { s with machine := { s.machine with addresses := networkAddresses } }

/-- SyncMachine: providerID sync, annotation and label sync, network address
sync, then provider-status sync, in source order. -/
def SyncMachine (s : MachineScope) (vm : VirtualMachine) (vmi : VirtualMachineInstance)
    (resolvedIPv4 : Option (List String)) : Except String MachineScope :=
  let s1 := syncProviderID s vm
  let s2 := syncMachineAnnotationsAndLabels s1 vm
  let s3 := syncNetworkAddresses s2 vmi resolvedIPv4
  syncProviderStatus s3 vm

end machinescope

/-- A remote error from the infra-cluster client; isNotFound models
k8s errors.IsNotFound on it. -/
structure RemoteErr where
  isNotFound : Bool
  msg : String
deriving DecidableEq, Repr

/-- The external environment of the VM manager: the response of every remote
infra-cluster endpoint, plus the DNS resolver used during status sync. -/
structure InfraWorld where
  createSecret : String → Secret → Except RemoteErr Secret
  createVM : String → VirtualMachine → Except RemoteErr VirtualMachine
  getVM : String → String → Except RemoteErr VirtualMachine
  updateVM : String → VirtualMachine → Except RemoteErr VirtualMachine
  deleteVM : String → String → Int → Except RemoteErr Unit
  getVMI : String → String → Except RemoteErr VirtualMachineInstance
  lookupIPv4 : String → Option (List String)

/-- One remote infra-cluster call, recorded with its arguments in the order
the manager issued it. -/
inductive RemoteCall where
  | createSecret (ns : String) (secret : Secret)
  | createVM (ns : String) (vm : VirtualMachine)
  | getVM (ns name : String)
  | updateVM (ns : String) (vm : VirtualMachine)
  | deleteVM (ns name : String) (gracePeriodSeconds : Int)
  | getVMI (ns name : String)

/-- True for the calls that touch the remote VirtualMachine resource. -/
def RemoteCall.isVMCall : RemoteCall → Bool
  | RemoteCall.createVM _ _ => true
  | RemoteCall.getVM _ _ => true
  | RemoteCall.updateVM _ _ => true
  | RemoteCall.deleteVM _ _ _ => true
  | _ => false

/-- True for a remote ignition-secret creation call. -/
def RemoteCall.isCreateSecret : RemoteCall → Bool
  | RemoteCall.createSecret _ _ => true
  | _ => false

/-- True for a remote VirtualMachine deletion call. -/
def RemoteCall.isDeleteVM : RemoteCall → Bool
  | RemoteCall.deleteVM _ _ _ => true
  | _ => false

namespace kubevirt

/-- addHostnameToUserData: decode the raw ignition bytes, append a hostname
file entry under storage.files, and re-encode. The raw byte input is
represented by its JSON-decode result: none when src does not decode into a
JSON object (json.Unmarshal leaves dataMap nil and its error is discarded),
some m when it decodes to the object m. Writing into the nil map, and every
failing Go type assertion on the way, is a runtime panic. json.Marshal of the
resulting map is total, so the error return is never produced. -/
def addHostnameToUserData (src : Option (List (String × GoVal))) (hostname : String) :
    GoOutcome GoVal :=
  match src with
  | none =>
    -- dataMap is nil: storage is absent, and the assignment of the empty
    -- storage map into the nil map is a runtime panic
    GoOutcome.panicked
  | some dataMap =>
    let dataMap1 :=
      match goLookup dataMap "storage" with
      | none => goInsert dataMap "storage" (GoVal.obj [])
      | some _ => dataMap
    match goLookup dataMap1 "storage" with
    | some (GoVal.obj storage) =>
      let storage1 :=
        match goLookup storage "files" with
        | none => goInsert storage "files" (GoVal.mapSlice [])
        | some _ => storage
      match goLookup storage1 "files" with
      | some (GoVal.mapSlice files) =>
        let newFile : List (String × GoVal) :=
          [ ("filesystem", GoVal.str "root"),
            ("path", GoVal.str "/etc/hostname"),
            ("mode", GoVal.num 420),
            ("contents", GoVal.obj [("source", GoVal.str ("data:," ++ hostname))]) ]
        let storage2 := goInsert storage1 "files" (GoVal.mapSlice (files ++ [newFile]))
        let dataMap2 := goInsert dataMap1 "storage" (GoVal.obj storage2)
        GoOutcome.ok (GoVal.obj dataMap2)
      | some _ =>
        -- storage.files decoded from JSON is a slice of interface values,
        -- not a slice of maps: the Go type assertion panics
        GoOutcome.panicked
      | none => GoOutcome.panicked
    | some _ =>
      -- storage decoded from JSON is not an object: the type assertion panics
      GoOutcome.panicked
    | none => GoOutcome.panicked

/-- The manager's syncMachine helper: fetch the VMI of the VM and run the
machine scope's SyncMachine, wrapping either failure with the operation name. -/
def syncMachine (w : InfraWorld) (vm : VirtualMachine) (s : MachineScope)
    (machineName operation : String) : Except String MachineScope × List RemoteCall :=
  match w.getVMI vm.ns vm.name with
  | Except.error e =>
    (Except.error (machineName ++ ": Error during " ++ operation ++
      ": failed to get vmi of the Machine, with error: " ++ e.msg),
     [RemoteCall.getVMI vm.ns vm.name])
  | Except.ok vmi =>
    match machinescope.SyncMachine s vm vmi (w.lookupIPv4 vmi.name) with
    | Except.error e =>
      (Except.error (machineName ++ ": Error during " ++ operation ++
        ": failed to sync the Machine, with error: " ++ e),
       [RemoteCall.getVMI vm.ns vm.name])
    | Except.ok s2 => (Except.ok s2, [RemoteCall.getVMI vm.ns vm.name])

/-- Create: inject the hostname into the user data, create the ignition
secret remotely, build the desired VM, create it remotely, then sync the
machine. On success the outcome carries the synced machine scope. -/
def Create (w : InfraWorld) (s : MachineScope) (userData : Option (List (String × GoVal))) :
    GoOutcome MachineScope × List RemoteCall :=
  let machineName := s.machine.name
  match addHostnameToUserData userData machineName with
  | GoOutcome.panicked => (GoOutcome.panicked, [])
  | GoOutcome.err e => (GoOutcome.err e, [])
  | GoOutcome.ok fullUserData =>
    let secretFromMachine := machinescope.CreateIgnitionSecretFromMachine s fullUserData
    match w.createSecret secretFromMachine.ns secretFromMachine with
    | Except.error e =>
      (GoOutcome.err (machineName ++
        ": Error during Create: failed to create ignition secret in infraCluster, with error: " ++ e.msg),
       [RemoteCall.createSecret secretFromMachine.ns secretFromMachine])
    | Except.ok _ =>
      match machinescope.CreateVirtualMachineFromMachine s with
      | Except.error e =>
        (GoOutcome.err (machineName ++
          ": Error during Create: failed to build Virtual Machine struct, with error: " ++ e),
         [RemoteCall.createSecret secretFromMachine.ns secretFromMachine])
      | Except.ok virtualMachineFromMachine =>
        match w.createVM virtualMachineFromMachine.ns virtualMachineFromMachine with
        | Except.error e =>
          (GoOutcome.err (machineName ++
            ": Error during Create: failed to create Virtual Machine in infraCluster, with error: " ++ e.msg),
           [RemoteCall.createSecret secretFromMachine.ns secretFromMachine,
            RemoteCall.createVM virtualMachineFromMachine.ns virtualMachineFromMachine])
        | Except.ok createdVM =>
          let syncResult := syncMachine w createdVM s machineName "Create"
          ((match syncResult.1 with
            | Except.error e => GoOutcome.err e
            | Except.ok s2 => GoOutcome.ok s2),
           [RemoteCall.createSecret secretFromMachine.ns secretFromMachine,
            RemoteCall.createVM virtualMachineFromMachine.ns virtualMachineFromMachine] ++
             syncResult.2)

/-- Delete: build the desired VM only for its name and namespace, fetch the
existing remote VM treating not-found as success, and delete it with a fixed
grace period of 10 seconds. Returns the Go error value (none on success). -/
def Delete (w : InfraWorld) (s : MachineScope) : Option String × List RemoteCall :=
  let machineName := s.machine.name
  match machinescope.CreateVirtualMachineFromMachine s with
  | Except.error e =>
    (some (machineName ++
      ": Error during Delete: failed to build Virtual Machine struct, with error: " ++ e), [])
  | Except.ok virtualMachineFromMachine =>
    match w.getVM virtualMachineFromMachine.ns virtualMachineFromMachine.name with
    | Except.error e =>
      if e.isNotFound then
        (none, [RemoteCall.getVM virtualMachineFromMachine.ns virtualMachineFromMachine.name])
      else
        (some (machineName ++
          ": Error during Delete: failed to get Virtual Machine from infraCluster, with error: " ++ e.msg),
         [RemoteCall.getVM virtualMachineFromMachine.ns virtualMachineFromMachine.name])
    | Except.ok existingVM =>
      match w.deleteVM existingVM.ns existingVM.name 10 with
      | Except.error e =>
        (some (machineName ++
          ": Error during Delete: failed to delete Virtual Machine in infraCluster, with error: " ++ e.msg),
         [RemoteCall.getVM virtualMachineFromMachine.ns virtualMachineFromMachine.name,
          RemoteCall.deleteVM existingVM.ns existingVM.name 10])
      | Except.ok _ =>
        (none,
         [RemoteCall.getVM virtualMachineFromMachine.ns virtualMachineFromMachine.name,
          RemoteCall.deleteVM existingVM.ns existingVM.name 10])

/-- Update: build the desired VM, fetch the existing remote VM (absence is an
error), copy the existing resourceVersion and created/ready status onto the
desired VM, submit the update, derive wasUpdated by comparing resource
versions before and after, then sync the machine. Returns the Go pair of
wasUpdated and the error value. -/
def Update (w : InfraWorld) (s : MachineScope) :
    (Bool × Option String) × List RemoteCall :=
  let machineName := s.machine.name
  match machinescope.CreateVirtualMachineFromMachine s with
  | Except.error e =>
    ((false, some (machineName ++
      ": Error during Update: failed to build Virtual Machine struct, with error: " ++ e)), [])
  | Except.ok virtualMachineFromMachine =>
    match w.getVM virtualMachineFromMachine.ns virtualMachineFromMachine.name with
    | Except.error e =>
      ((false, some (machineName ++
        ": Error during Update: failed to get Virtual Machine from infraCluster, with error: " ++ e.msg)),
       [RemoteCall.getVM virtualMachineFromMachine.ns virtualMachineFromMachine.name])
    | Except.ok existingVM =>
      let previousResourceVersion := existingVM.resourceVersion
      let submitted : VirtualMachine :=
        { virtualMachineFromMachine with
            resourceVersion := previousResourceVersion
            status := { created := existingVM.status.created, ready := existingVM.status.ready } }
      match w.updateVM submitted.ns submitted with
      | Except.error e =>
        ((false, some (machineName ++
          ": Error during Update: failed to update Virtual Machine in infraCluster, with error: " ++ e.msg)),
         [RemoteCall.getVM virtualMachineFromMachine.ns virtualMachineFromMachine.name,
          RemoteCall.updateVM submitted.ns submitted])
      | Except.ok updatedVM =>
        let currentResourceVersion := updatedVM.resourceVersion
        let wasUpdated := decide (previousResourceVersion ≠ currentResourceVersion)
        let syncResult := syncMachine w updatedVM s machineName "Update"
        ((wasUpdated,
          match syncResult.1 with
          | Except.error e => some e
          | Except.ok _ => none),
         [RemoteCall.getVM virtualMachineFromMachine.ns virtualMachineFromMachine.name,
          RemoteCall.updateVM submitted.ns submitted] ++ syncResult.2)

/-- Exists: fetch the VM by machine name in the infra namespace; not-found is
false with no error, any other failure is false with an error. -/
def Exists (w : InfraWorld) (s : MachineScope) :
    (Bool × Option String) × List RemoteCall :=
  let machineName := s.machine.name
  let infraNamespace := s.infraNamespace
  match w.getVM infraNamespace machineName with
  | Except.error e =>
    if e.isNotFound then
      ((false, none), [RemoteCall.getVM infraNamespace machineName])
    else
      ((false, some (machineName ++
        ": Error during Exists: failed to get vm of the Machine, with error: " ++ e.msg)),
       [RemoteCall.getVM infraNamespace machineName])
  | Except.ok _ => ((true, none), [RemoteCall.getVM infraNamespace machineName])

end kubevirt

/-- The update gate as the spec sentence states it, written from the spec's
words for comparison with machinescope.UpdateAllowed: providerID set and
non-empty, and either no lastUpdated timestamp or the current time strictly
later than lastUpdated plus the minimum interval. -/
def specUpdateAllowed (s : MachineScope) (requeueAfterSeconds : Int) (now : Int) : Bool :=
  (match s.machine.providerID with
   | none => false
   | some pid => decide (pid ≠ "")) &&
  (match s.machine.lastUpdated with
   | none => true
   | some lastUpdated => decide (now > lastUpdated + requeueAfterSeconds))

/-- Lookup after insert of the same key yields the inserted value. -/
theorem mapLookup_mapInsert_self (m : List (String × String)) (k v : String) :
    mapLookup (mapInsert m k v) k = some v := by
  induction m with
  | nil => simp [mapInsert, mapLookup]
  | cons hd tl ih =>
    by_cases h : hd.1 = k
    · obtain ⟨k2, v2⟩ := hd
      simp only at h
      simp [mapInsert, mapLookup, h]
    · obtain ⟨k2, v2⟩ := hd
      simp only at h
      simp [mapInsert, mapLookup, h, ih]

/-- A provider spec with the mandatory fields set and every optional field
left empty. -/
def specDefaults : KubevirtMachineProviderSpec :=
  { sourcePvcName := "pvc1"
    ignitionSecretName := "ign1"
    networkName := "net1"
    requestedMemory := ""
    requestedCPU := 0
    requestedStorage := ""
    storageClassName := ""
    persistentVolumeAccessMode := "" }

/-- A provider spec with every field empty. -/
def specAllEmpty : KubevirtMachineProviderSpec :=
  { sourcePvcName := ""
    ignitionSecretName := ""
    networkName := ""
    requestedMemory := ""
    requestedCPU := 0
    requestedStorage := ""
    storageClassName := ""
    persistentVolumeAccessMode := "" }

/-- A machine fixture with a provisioned providerID and a lastUpdated stamp. -/
def machineA : Machine :=
  { name := "m1"
    ns := "tenant"
    labels := []
    annotations := []
    clusterName := ""
    providerID := some "abc"
    lastUpdated := some 0
    providerStatus := none
    addresses := [] }

/-- Scope fixture over machineA with the defaults provider spec. -/
def scopeA : MachineScope :=
  { machine := machineA
    machineProviderSpec := specDefaults
    infraNamespace := "infra"
    infraID := "cid" }

/-- Scope fixture whose provider spec has every mandatory field empty. -/
def scopeEmpty : MachineScope :=
  { machine := machineA
    machineProviderSpec := specAllEmpty
    infraNamespace := "infra"
    infraID := "cid" }

/-- C1 counterexample input: providerID set and non-empty, lastUpdated 0,
interval 10, current time 20. The spec predicts true (now is later than
lastUpdated plus the interval); the code returns false. -/
theorem updateAllowed_claim_counterexample :
    specUpdateAllowed scopeA 10 20 = true ∧
      machinescope.UpdateAllowed scopeA 10 20 = false := by
  constructor
  · decide
  · decide

/-- C1 amended: UpdateAllowed is true exactly when the providerID is set and
non-empty and either no lastUpdated timestamp exists or the current time is
still strictly earlier than lastUpdated plus the minimum interval; in
particular a call made at or after lastUpdated plus the interval returns
false — the reverse of the spacing the spec describes. -/
theorem updateAllowed_characterization (s : MachineScope) (requeueAfterSeconds now : Int) :
    machinescope.UpdateAllowed s requeueAfterSeconds now = true ↔
      ((∃ pid, s.machine.providerID = some pid ∧ pid ≠ "") ∧
        (s.machine.lastUpdated = none ∨
          ∃ lastUpdated, s.machine.lastUpdated = some lastUpdated ∧
            now < lastUpdated + requeueAfterSeconds)) := by
  unfold machinescope.UpdateAllowed
  cases hp : s.machine.providerID <;> cases hl : s.machine.lastUpdated <;>
    simp [hp, hl, Int.lt_iff_add_one_le]

/-- C6: the mandatory-field check inspects sourcePvcName, then
ignitionSecretName, then networkName; the first empty field wins and the
error names exactly that field; no error when all three are non-empty. -/
theorem assertMandatoryParams_order (s : MachineScope) :
    (s.machineProviderSpec.sourcePvcName = "" →
      machinescope.assertMandatoryParams s =
        some (s.machine.name ++ ": missing value for SourcePvcName")) ∧
    (s.machineProviderSpec.sourcePvcName ≠ "" →
      s.machineProviderSpec.ignitionSecretName = "" →
      machinescope.assertMandatoryParams s =
        some (s.machine.name ++ ": missing value for IgnitionSecretName")) ∧
    (s.machineProviderSpec.sourcePvcName ≠ "" →
      s.machineProviderSpec.ignitionSecretName ≠ "" →
      s.machineProviderSpec.networkName = "" →
      machinescope.assertMandatoryParams s =
        some (s.machine.name ++ ": missing value for NetworkName")) ∧
    (s.machineProviderSpec.sourcePvcName ≠ "" →
      s.machineProviderSpec.ignitionSecretName ≠ "" →
      s.machineProviderSpec.networkName ≠ "" →
      machinescope.assertMandatoryParams s = none) := by
  unfold machinescope.assertMandatoryParams
  refine ⟨?_, ?_, ?_, ?_⟩ <;> intros <;> simp_all

/-- C6 witness: on a scope whose three mandatory fields are all empty, the
error names SourcePvcName. -/
theorem assertMandatoryParams_order_witness :
    machinescope.assertMandatoryParams scopeEmpty =
      some ("m1" ++ ": missing value for SourcePvcName") :=
  (assertMandatoryParams_order scopeEmpty).1 rfl

/-- After syncProviderID the machine's providerID is always the formatted id
of the observed VM. -/
theorem syncProviderID_providerID (s : MachineScope) (vm : VirtualMachine) :
    (machinescope.syncProviderID s vm).machine.providerID =
      some (machinescope.FormatProviderID vm.ns vm.name) := by
  unfold machinescope.syncProviderID
  cases hp : s.machine.providerID with
  | none => simp
  | some pid =>
    by_cases h : pid = machinescope.FormatProviderID vm.ns vm.name <;> simp [h, hp]

/-- C3: SyncMachine derives the instance-state annotation solely from the
observed VM's created and ready booleans: created false yields vmNotCreated
regardless of ready (so the pair false and true collapses to vmNotCreated),
created true and ready false yields vmWasCreatedButNotReady, and created true
and ready true yields vmWasCreatedAndReady. -/
theorem syncMachine_instance_state (s : MachineScope) (vm : VirtualMachine)
    (vmi : VirtualMachineInstance) (resolvedIPv4 : Option (List String)) :
    ∃ s2, machinescope.SyncMachine s vm vmi resolvedIPv4 = Except.ok s2 ∧
      mapLookup s2.machine.annotations machinescope.MachineInstanceStateAnnotationName =
        some (match vm.status.created, vm.status.ready with
              | false, _ => machinescope.vmNotCreated
              | true, false => machinescope.vmCreatedNotReady
              | true, true => machinescope.vmCreatedAndReady) := by
  refine ⟨_, rfl, ?_⟩
  cases hc : vm.status.created <;> cases hr : vm.status.ready <;>
    simp [machinescope.syncNetworkAddresses, machinescope.syncMachineAnnotationsAndLabels,
      hc, hr, mapLookup_mapInsert_self]

/-- C9: the providerID assigned during SyncMachine is the pure deterministic
function of the observed VM's namespace and name, and when the machine's
existing providerID already equals that computed value the sync leaves the
providerID unchanged, so re-applying SyncMachine with the same VM is a no-op
on providerID. -/
theorem syncMachine_providerID (s : MachineScope) (vm : VirtualMachine)
    (vmi : VirtualMachineInstance) (resolvedIPv4 : Option (List String)) :
    ∃ s2, machinescope.SyncMachine s vm vmi resolvedIPv4 = Except.ok s2 ∧
      s2.machine.providerID = some (machinescope.FormatProviderID vm.ns vm.name) ∧
      (s.machine.providerID = some (machinescope.FormatProviderID vm.ns vm.name) →
        s2.machine.providerID = s.machine.providerID) := by
  refine ⟨_, rfl, ?_, ?_⟩
  · simp [machinescope.syncNetworkAddresses, machinescope.syncMachineAnnotationsAndLabels,
      syncProviderID_providerID]
  · intro h
    simp [machinescope.syncNetworkAddresses, machinescope.syncMachineAnnotationsAndLabels,
      syncProviderID_providerID, h]

/-- An observed VM fixture living in the infra namespace under the machine
name, created but not ready. -/
def vmObserved : VirtualMachine :=
  { apiVersion := "kubevirt.io/v1alpha3"
    kind := "VirtualMachine"
    name := "m1"
    ns := "infra"
    labels := []
    annotations := []
    clusterName := ""
    resourceVersion := "7"
    uid := "uid-1"
    runStrategy := "Always"
    dataVolumeTemplates := []
    template := none
    status := { created := true, ready := false } }

/-- An observed VMI fixture matching vmObserved. -/
def vmiA : VirtualMachineInstance := { name := "m1", ns := "infra" }

/-- Scope fixture whose machine already carries the providerID computed from
vmObserved. -/
def scopeP : MachineScope :=
  { machine := { machineA with providerID := some "kubevirt://infra/m1" }
    machineProviderSpec := specDefaults
    infraNamespace := "infra"
    infraID := "cid" }

/-- C9 witness: on scopeP, whose providerID already equals the computed
value, SyncMachine leaves the providerID unchanged. -/
theorem syncMachine_providerID_witness :
    ∃ s2, machinescope.SyncMachine scopeP vmObserved vmiA none = Except.ok s2 ∧
      s2.machine.providerID = scopeP.machine.providerID := by
  obtain ⟨s2, h1, _, h3⟩ := syncMachine_providerID scopeP vmObserved vmiA none
  exact ⟨s2, h1, h3 (by decide)⟩

/-- True for a data-volume volume source. -/
def VolumeSource.isDataVolumeSource : VolumeSource → Bool
  | VolumeSource.dataVolume _ => true
  | _ => false

/-- True for a cloud-init config-drive volume source. -/
def VolumeSource.isCloudInitSource : VolumeSource → Bool
  | VolumeSource.cloudInitConfigDrive _ => true
  | _ => false

/-- C7: desired-VM construction applies the defaults for the absent optional
fields (memory 2048M, storage 35Gi, access mode ReadWriteMany) and accepts an
explicit access mode only out of ReadWriteMany, ReadOnlyMany, ReadWriteOnce;
any other value fails with a configuration error naming the three legal
values. -/
theorem createVM_defaults_and_access_mode (s : MachineScope)
    (hmand : machinescope.assertMandatoryParams s = none) :
    ((s.machineProviderSpec.persistentVolumeAccessMode = "" ∨
        s.machineProviderSpec.persistentVolumeAccessMode = machinescope.readWriteMany ∨
        s.machineProviderSpec.persistentVolumeAccessMode = machinescope.readOnlyMany ∨
        s.machineProviderSpec.persistentVolumeAccessMode = machinescope.readWriteOnce) →
      ∃ vm t dv, machinescope.CreateVirtualMachineFromMachine s = Except.ok vm ∧
        vm.template = some t ∧ vm.dataVolumeTemplates = [dv] ∧
        (s.machineProviderSpec.requestedMemory = "" →
          t.memoryRequest = "2048M") ∧
        (s.machineProviderSpec.requestedStorage = "" →
          dv.requestsStorage = "35Gi") ∧
        (s.machineProviderSpec.persistentVolumeAccessMode = "" →
          dv.accessModes = ["ReadWriteMany"]) ∧
        (s.machineProviderSpec.persistentVolumeAccessMode ≠ "" →
          dv.accessModes = [s.machineProviderSpec.persistentVolumeAccessMode])) ∧
    ((s.machineProviderSpec.persistentVolumeAccessMode ≠ "" ∧
        s.machineProviderSpec.persistentVolumeAccessMode ≠ machinescope.readWriteMany ∧
        s.machineProviderSpec.persistentVolumeAccessMode ≠ machinescope.readOnlyMany ∧
        s.machineProviderSpec.persistentVolumeAccessMode ≠ machinescope.readWriteOnce) →
      machinescope.CreateVirtualMachineFromMachine s = Except.error (s.machine.name ++
        ": Value of PersistentVolumeAccessMode, can be only one of: ReadWriteMany, ReadOnlyMany, ReadWriteOnce")) := by
  unfold machinescope.CreateVirtualMachineFromMachine
  rw [hmand]
  constructor
  · rintro (h | h | h | h) <;>
      simp [machinescope.readWriteMany, machinescope.readOnlyMany, machinescope.readWriteOnce,
        machinescope.defaultPersistentVolumeAccessMode, machinescope.defaultRequestedStorage,
        machinescope.defaultRequestedMemory, machinescope.buildVMITemplate,
        machinescope.buildBootVolumeDataVolumeTemplate, h] <;>
      exact ⟨fun a b => absurd a b, fun a b => absurd a b⟩
  · rintro ⟨h1, h2, h3, h4⟩
    simp [machinescope.readWriteMany] at h2
    simp [machinescope.readOnlyMany] at h3
    simp [machinescope.readWriteOnce] at h4
    simp [machinescope.readWriteMany, machinescope.readOnlyMany, machinescope.readWriteOnce,
      h1, h2, h3, h4]

/-- C7 witness: on a scope with empty optional fields the defaults are
applied, and an explicit NotValid access mode fails with the error naming the
three legal values. -/
theorem createVM_defaults_witness :
    (∃ vm t dv, machinescope.CreateVirtualMachineFromMachine scopeA = Except.ok vm ∧
        vm.template = some t ∧ vm.dataVolumeTemplates = [dv] ∧
        t.memoryRequest = "2048M" ∧ dv.requestsStorage = "35Gi" ∧
        dv.accessModes = ["ReadWriteMany"]) ∧
    machinescope.CreateVirtualMachineFromMachine
        { scopeA with machineProviderSpec :=
            { specDefaults with persistentVolumeAccessMode := "NotValid" } } =
      Except.error ("m1" ++
        ": Value of PersistentVolumeAccessMode, can be only one of: ReadWriteMany, ReadOnlyMany, ReadWriteOnce") := by
  constructor
  · obtain ⟨vm, t, dv, h1, h2, h3, h4, h5, h6, -⟩ :=
      (createVM_defaults_and_access_mode scopeA rfl).1 (Or.inl rfl)
    exact ⟨vm, t, dv, h1, h2, h3, h4 rfl, h5 rfl, h6 rfl⟩
  · exact (createVM_defaults_and_access_mode
      { scopeA with machineProviderSpec :=
          { specDefaults with persistentVolumeAccessMode := "NotValid" } } rfl).2
      (by refine ⟨?_, ?_, ?_, ?_⟩ <;> decide)

/-- Any successfully constructed desired VM is named after the machine and
lives in the infra namespace. -/
theorem createVM_ok_name_ns (s : MachineScope) (vm : VirtualMachine)
    (h : machinescope.CreateVirtualMachineFromMachine s = Except.ok vm) :
    vm.name = s.machine.name ∧ vm.ns = s.infraNamespace := by
  unfold machinescope.CreateVirtualMachineFromMachine at h
  cases ha : machinescope.assertMandatoryParams s with
  | some e => rw [ha] at h; exact absurd h (by simp)
  | none =>
    simp only [ha] at h
    split at h
    · exact absurd h (by simp)
    · injection h with hvm
      subst hvm
      exact ⟨rfl, rfl⟩

/-- C8: the generated ignition-secret and boot-volume names are pure
deterministic functions of the machine name (name-ignition and
name-bootvolume), and every successfully constructed VM template wires
exactly one data-volume-backed boot volume referencing the data volume named
machinename-bootvolume, exactly one cloud-init volume referencing the secret
machinename-ignition, and one disk for each of the two volumes. -/
theorem naming_and_volume_wiring (s : MachineScope) (vmName : String) (vm : VirtualMachine)
    (hbuild : machinescope.CreateVirtualMachineFromMachine s = Except.ok vm) :
    machinescope.buildIgnitionSecretName vmName = vmName ++ "-ignition" ∧
    machinescope.buildBootVolumeName vmName = vmName ++ "-bootvolume" ∧
    ∃ t, vm.template = some t ∧
      t.volumes.filter (fun v => v.source.isDataVolumeSource) =
        [{ name := machinescope.defaultDataVolumeDiskName
           source := VolumeSource.dataVolume (s.machine.name ++ "-bootvolume") }] ∧
      t.volumes.filter (fun v => v.source.isCloudInitSource) =
        [{ name := machinescope.defaultCloudInitVolumeDiskName
           source := VolumeSource.cloudInitConfigDrive (s.machine.name ++ "-ignition") }] ∧
      t.disks =
        [{ name := machinescope.defaultDataVolumeDiskName, bus := machinescope.defaultBus },
         { name := machinescope.defaultCloudInitVolumeDiskName, bus := machinescope.defaultBus }] := by
  refine ⟨rfl, ?_, ?_⟩
  · unfold machinescope.buildBootVolumeName machinescope.defaultBootVolumeDiskName
    rw [String.append_assoc]
    rfl
  · unfold machinescope.CreateVirtualMachineFromMachine at hbuild
    cases ha : machinescope.assertMandatoryParams s with
    | some e => rw [ha] at hbuild; exact absurd hbuild (by simp)
    | none =>
      simp only [ha] at hbuild
      split at hbuild
      · exact absurd hbuild (by simp)
      · injection hbuild with hvm
        subst hvm
        refine ⟨_, rfl, ?_, ?_, rfl⟩ <;>
          simp [machinescope.buildVMITemplate, List.filter,
            VolumeSource.isDataVolumeSource, VolumeSource.isCloudInitSource,
            machinescope.buildBootVolumeName, machinescope.defaultBootVolumeDiskName,
            machinescope.buildIgnitionSecretName, String.append_assoc]

/-- The VM built from scopeA (total by falling back to vmObserved, which the
construction never hits since scopeA is valid). -/
def vmBuiltA : VirtualMachine :=
  match machinescope.CreateVirtualMachineFromMachine scopeA with
  | Except.ok vm => vm
  | Except.error _ => vmObserved

/-- C8 witness: concrete machine m1 with all mandatory fields set. -/
theorem naming_and_volume_wiring_witness :
    machinescope.buildIgnitionSecretName "m1" = "m1" ++ "-ignition" ∧
    machinescope.buildBootVolumeName "m1" = "m1" ++ "-bootvolume" ∧
    ∃ t, vmBuiltA.template = some t ∧
      t.volumes.filter (fun v => v.source.isDataVolumeSource) =
        [{ name := machinescope.defaultDataVolumeDiskName
           source := VolumeSource.dataVolume ("m1" ++ "-bootvolume") }] ∧
      t.volumes.filter (fun v => v.source.isCloudInitSource) =
        [{ name := machinescope.defaultCloudInitVolumeDiskName
           source := VolumeSource.cloudInitConfigDrive ("m1" ++ "-ignition") }] ∧
      t.disks =
        [{ name := machinescope.defaultDataVolumeDiskName, bus := machinescope.defaultBus },
         { name := machinescope.defaultCloudInitVolumeDiskName, bus := machinescope.defaultBus }] :=
  naming_and_volume_wiring scopeA "m1" vmBuiltA rfl

/-- A world whose every remote call succeeds: secret creation and VM updates
echo their argument, fetches return vmObserved, and DNS resolution fails. -/
def wEcho : InfraWorld :=
  { createSecret := fun _ sec => Except.ok sec
    createVM := fun _ vm => Except.ok vm
    getVM := fun _ _ => Except.ok vmObserved
    updateVM := fun _ vm => Except.ok vm
    deleteVM := fun _ _ _ => Except.ok ()
    getVMI := fun ns name => Except.ok { name := name, ns := ns }
    lookupIPv4 := fun _ => none }

/-- C2 counterexample: on a scope whose sourcePvcName is empty, Create still
attempts the remote ignition-secret creation call before the desired-VM
construction fails, so not every remote infra call is avoided. -/
theorem create_attempts_secret_counterexample :
    scopeEmpty.machineProviderSpec.sourcePvcName = "" ∧
    ((kubevirt.Create wEcho scopeEmpty (some [])).2.any (fun c => c.isCreateSecret)) = true := by
  exact ⟨rfl, rfl⟩

/-- C2 amended: with an empty mandatory field the desired-VM construction
fails closed, Update and Delete return a configuration error without issuing
any remote call, and Create never reaches a VirtualMachine remote call
(get, create, update or delete VM) and never succeeds — but it does attempt
the remote ignition-secret creation before the construction failure. -/
theorem mandatory_empty_fails_closed (w : InfraWorld) (s : MachineScope)
    (userData : Option (List (String × GoVal)))
    (h : s.machineProviderSpec.sourcePvcName = "" ∨
         s.machineProviderSpec.ignitionSecretName = "" ∨
         s.machineProviderSpec.networkName = "") :
    (∃ e, machinescope.CreateVirtualMachineFromMachine s = Except.error e) ∧
    (kubevirt.Update w s).2 = [] ∧
    (∃ m, (kubevirt.Update w s).1 = (false, some m)) ∧
    (kubevirt.Delete w s).2 = [] ∧
    (∃ m, (kubevirt.Delete w s).1 = some m) ∧
    ((kubevirt.Create w s userData).2.all (fun c => !c.isVMCall)) = true ∧
    (∀ s2, (kubevirt.Create w s userData).1 ≠ GoOutcome.ok s2) := by
  obtain ⟨e, he⟩ : ∃ e, machinescope.assertMandatoryParams s = some e := by
    unfold machinescope.assertMandatoryParams
    rcases h with h | h | h <;> simp [h] <;> (repeat' split) <;> exact ⟨_, rfl⟩
  have hc : machinescope.CreateVirtualMachineFromMachine s = Except.error e := by
    unfold machinescope.CreateVirtualMachineFromMachine
    rw [he]
  refine ⟨⟨e, hc⟩, ?_, ?_, ?_, ?_, ?_, ?_⟩
  · simp [kubevirt.Update, hc]
  · exact ⟨s.machine.name ++
      ": Error during Update: failed to build Virtual Machine struct, with error: " ++ e,
      by simp [kubevirt.Update, hc]⟩
  · simp [kubevirt.Delete, hc]
  · exact ⟨s.machine.name ++
      ": Error during Delete: failed to build Virtual Machine struct, with error: " ++ e,
      by simp [kubevirt.Delete, hc]⟩
  · unfold kubevirt.Create
    cases hA : kubevirt.addHostnameToUserData userData s.machine.name with
    | panicked => simp [hA]
    | err e2 => simp [hA]
    | ok fullUserData =>
      cases hS : w.createSecret
          (machinescope.CreateIgnitionSecretFromMachine s fullUserData).ns
          (machinescope.CreateIgnitionSecretFromMachine s fullUserData) with
      | error e2 => simp [hA, hS, RemoteCall.isVMCall]
      | ok sec => simp [hA, hS, hc, RemoteCall.isVMCall]
  · intro s2
    unfold kubevirt.Create
    cases hA : kubevirt.addHostnameToUserData userData s.machine.name with
    | panicked => simp [hA]
    | err e2 => simp [hA]
    | ok fullUserData =>
      cases hS : w.createSecret
          (machinescope.CreateIgnitionSecretFromMachine s fullUserData).ns
          (machinescope.CreateIgnitionSecretFromMachine s fullUserData) with
      | error e2 => simp [hA, hS]
      | ok sec => simp [hA, hS, hc]

/-- C2 witness: concrete all-empty scope, echo world and empty user data. -/
theorem mandatory_empty_fails_closed_witness :
    (∃ e, machinescope.CreateVirtualMachineFromMachine scopeEmpty = Except.error e) ∧
    (kubevirt.Update wEcho scopeEmpty).2 = [] ∧
    (∃ m, (kubevirt.Update wEcho scopeEmpty).1 = (false, some m)) ∧
    (kubevirt.Delete wEcho scopeEmpty).2 = [] ∧
    (∃ m, (kubevirt.Delete wEcho scopeEmpty).1 = some m) ∧
    ((kubevirt.Create wEcho scopeEmpty (some [])).2.all (fun c => !c.isVMCall)) = true ∧
    (∀ s2, (kubevirt.Create wEcho scopeEmpty (some [])).1 ≠ GoOutcome.ok s2) :=
  mandatory_empty_fails_closed wEcho scopeEmpty (some []) (Or.inl rfl)

/-- C5: when the remote VM fetch fails, Delete and Exists treat not-found as
success — Delete returns no error and never attempts the remote deletion,
Exists returns false with no error — while any other fetch failure propagates
as an error from both. -/
theorem delete_exists_notFound_semantics (w : InfraWorld) (s : MachineScope)
    (vm : VirtualMachine) (e : RemoteErr)
    (hbuild : machinescope.CreateVirtualMachineFromMachine s = Except.ok vm)
    (hget : w.getVM s.infraNamespace s.machine.name = Except.error e) :
    (e.isNotFound = true →
      (kubevirt.Delete w s).1 = none ∧
      ((kubevirt.Delete w s).2.all (fun c => !c.isDeleteVM)) = true ∧
      (kubevirt.Exists w s).1 = (false, none)) ∧
    (e.isNotFound = false →
      (∃ m, (kubevirt.Delete w s).1 = some m) ∧
      (∃ m, (kubevirt.Exists w s).1 = (false, some m))) := by
  obtain ⟨hname, hns⟩ := createVM_ok_name_ns s vm hbuild
  have hget2 : w.getVM vm.ns vm.name = Except.error e := by
    rw [hns, hname]; exact hget
  constructor
  · intro hnf
    refine ⟨?_, ?_, ?_⟩
    · simp [kubevirt.Delete, hbuild, hget2, hnf]
    · simp [kubevirt.Delete, hbuild, hget2, hnf, RemoteCall.isDeleteVM]
    · simp [kubevirt.Exists, hget, hnf]
  · intro hnf
    refine ⟨?_, ?_⟩
    · exact ⟨s.machine.name ++
        ": Error during Delete: failed to get Virtual Machine from infraCluster, with error: " ++ e.msg,
        by simp [kubevirt.Delete, hbuild, hget2, hnf]⟩
    · exact ⟨s.machine.name ++
        ": Error during Exists: failed to get vm of the Machine, with error: " ++ e.msg,
        by simp [kubevirt.Exists, hget, hnf]⟩

/-- A world whose VM fetch reports not-found and everything else succeeds. -/
def wNotFound : InfraWorld :=
  { wEcho with getVM := fun _ _ => Except.error { isNotFound := true, msg := "not found" } }

/-- A world whose VM fetch fails with a non-not-found error. -/
def wBroken : InfraWorld :=
  { wEcho with getVM := fun _ _ => Except.error { isNotFound := false, msg := "boom" } }

/-- C5 witness: against the concrete not-found world Delete returns no error
without a remote delete and Exists returns false with no error; against the
broken world both propagate an error. -/
theorem delete_exists_notFound_witness :
    ((kubevirt.Delete wNotFound scopeA).1 = none ∧
      ((kubevirt.Delete wNotFound scopeA).2.all (fun c => !c.isDeleteVM)) = true ∧
      (kubevirt.Exists wNotFound scopeA).1 = (false, none)) ∧
    ((∃ m, (kubevirt.Delete wBroken scopeA).1 = some m) ∧
      (∃ m, (kubevirt.Exists wBroken scopeA).1 = (false, some m))) := by
  constructor
  · exact (delete_exists_notFound_semantics wNotFound scopeA vmBuiltA
      { isNotFound := true, msg := "not found" } rfl rfl).1 rfl
  · exact (delete_exists_notFound_semantics wBroken scopeA vmBuiltA
      { isNotFound := false, msg := "boom" } rfl rfl).2 rfl

/-- C10: the hostname-injection step discards the JSON decode error: on an
input that does not decode to a JSON object the nil decoded map makes the
subsequent map write a runtime panic rather than an error return, the error
return of addHostnameToUserData is never produced for any input, and Create
on such malformed user data panics before its malformed-user-data error
branch can be taken and before any remote call. -/
theorem addHostname_malformed_never_errors (hostname : String) (w : InfraWorld)
    (s : MachineScope) (src : Option (List (String × GoVal))) :
    kubevirt.addHostnameToUserData none hostname = GoOutcome.panicked ∧
    (∀ msg, kubevirt.addHostnameToUserData src hostname ≠ GoOutcome.err msg) ∧
    kubevirt.Create w s none = (GoOutcome.panicked, []) := by
  refine ⟨rfl, ?_, ?_⟩
  · intro msg
    unfold kubevirt.addHostnameToUserData
    cases src with
    | none => simp
    | some dataMap =>
      (repeat' split) <;> (try simp_all) <;>
        (repeat' split) <;> (try simp_all)
  · unfold kubevirt.Create
    simp [kubevirt.addHostnameToUserData]

/-- C4: an Update that reaches the remote update step submits the desired VM
carrying the existing remote VM's resourceVersion and created/ready status,
and wasUpdated is true exactly when the resourceVersion returned by the
update differs from the one read before it; an unchanged resourceVersion
yields wasUpdated false. -/
theorem update_wasUpdated_resourceVersion (w : InfraWorld) (s : MachineScope)
    (vm existingVM : VirtualMachine)
    (hbuild : machinescope.CreateVirtualMachineFromMachine s = Except.ok vm)
    (hget : w.getVM vm.ns vm.name = Except.ok existingVM) :
    (∃ rest, (kubevirt.Update w s).2 =
      RemoteCall.getVM vm.ns vm.name ::
      RemoteCall.updateVM vm.ns
        { vm with resourceVersion := existingVM.resourceVersion
                  status := { created := existingVM.status.created
                              ready := existingVM.status.ready } } :: rest) ∧
    (∀ updatedVM,
      w.updateVM vm.ns
          { vm with resourceVersion := existingVM.resourceVersion
                    status := { created := existingVM.status.created
                                ready := existingVM.status.ready } } = Except.ok updatedVM →
      (kubevirt.Update w s).1.1 =
        decide (existingVM.resourceVersion ≠ updatedVM.resourceVersion) ∧
      (updatedVM.resourceVersion = existingVM.resourceVersion →
        (kubevirt.Update w s).1.1 = false)) := by
  constructor
  · unfold kubevirt.Update
    simp only [hbuild, hget]
    cases hu : w.updateVM vm.ns
        { vm with resourceVersion := existingVM.resourceVersion
                  status := { created := existingVM.status.created
                              ready := existingVM.status.ready } } with
    | error e => exact ⟨[], by simp [hu]⟩
    | ok updatedVM =>
      exact ⟨(kubevirt.syncMachine w updatedVM s s.machine.name "Update").2, by simp [hu]⟩
  · intro updatedVM hu
    unfold kubevirt.Update
    simp only [hbuild, hget, hu]
    constructor
    · trivial
    · intro heq
      simp [heq]

/-- C4 witness: against the echo world (whose update returns the submitted
object unchanged) the resourceVersion is unchanged and wasUpdated is false. -/
theorem update_wasUpdated_witness :
    (kubevirt.Update wEcho scopeA).1.1 = false := by
  have h := update_wasUpdated_resourceVersion wEcho scopeA vmBuiltA vmObserved rfl rfl
  exact (h.2
    { vmBuiltA with resourceVersion := vmObserved.resourceVersion
                    status := { created := vmObserved.status.created
                                ready := vmObserved.status.ready } } rfl).2 rfl
